import Mathlib

/-!
Verification of the CPU-identification trust layer (`src/kernel/src/cpu/cpuid.rs`
and `src/kernel/src/cpu/features.rs`).

The hardware `__cpuid` instruction is modelled as an environment
`hw : Nat → CpuidResult` giving the four output registers for each leaf.
Machine integers (`u32`, `u64`) are modelled as `Nat`; every bit operation
in the source (masking, testing, equality) stays within the machine range
and none overflows, so no explicit wraparound is needed for the operations
modelled here.

Rust panics are modelled with the `PanicOr` outcome type; global write-once
cells (`lazy_static`, `ImmutAfterInitRef`) are modelled by explicit state
passing of an `Option` cell.
-/

/-- The four CPUID output registers (`CpuidResult` in `cpuid.rs`). -/
structure CpuidResult where
  eax : Nat
  ebx : Nat
  ecx : Nat
  edx : Nat
deriving DecidableEq, Repr, Inhabited

/-- Outcome of a Rust computation that may panic with a message. -/
inductive PanicOr (α : Type) where
  | panicked (msg : String)
  | ok (val : α)
deriving DecidableEq, Repr

/-- `cpuid` from `cpuid.rs`: wraps the hardware instruction `__cpuid`
(modelled as the environment `hw`) and repackages the four registers,
always under `Some`. -/
def cpuid (hw : Nat → CpuidResult) (eax : Nat) : Option CpuidResult :=
  let result := hw eax
  some { eax := result.eax, ebx := result.ebx, ecx := result.ecx, edx := result.edx }

/-- Modelled from the spec: one entry of the firmware-supplied verified table
(`SnpCpuidFn` of the external `cpuarch::snp_cpuid` crate, not part of the
excerpt). Spec §3: "the query tuple (leaf, sub-leaf, mask-1, mask-2) plus the
four output registers". Field names follow the accesses in `cpuid.rs`. -/
structure SnpCpuidFn where
  eax_in : Nat
  ecx_in : Nat
  xcr0_in : Nat
  xss_in : Nat
  eax_out : Nat
  ebx_out : Nat
  ecx_out : Nat
  edx_out : Nat
deriving DecidableEq, Repr

/-- Modelled from the spec: the verified table (`SnpCpuidTable` of the external
`cpuarch::snp_cpuid` crate, not part of the excerpt). Spec §3: "a reference to
the entry sequence plus an entry count". -/
structure SnpCpuidTable where
  count : Nat
  func : List SnpCpuidFn
deriving DecidableEq, Repr

/-- Modelled from the spec: `ImmutAfterInitRef::init_from_ref` of
`crate::utils::immut_after_init`, not part of the excerpt. Spec §3/§7: a
write-once cell, uninitialized at boot, initialized exactly once; "a second
initialization attempt ... must fail loudly". The cell is `none` before
installation; a second initialization returns an error and leaves no new state. -/
def init_from_ref {α : Type} (cell : Option α) (v : α) : Except Unit (Option α) :=
  match cell with
  | none => Except.ok (some v)
  | some _ => Except.error ()

/-- `register_cpuid_table` from `cpuid.rs`: one-time installation of the
verified table; `.expect(...)` panics with the given message on error. -/
def register_cpuid_table (cell : Option SnpCpuidTable) (table : SnpCpuidTable) :
    PanicOr (Option SnpCpuidTable) :=
  match init_from_ref cell table with
  | Except.ok cell' => PanicOr.ok cell'
  | Except.error _ => PanicOr.panicked "Could not initialize CPUID page"

/-- Whether a stored entry matches a query on all four key fields
(the condition of the `if` inside the scan loop of `cpuid_table_raw`). -/
def entry_matches (eax ecx xcr0 xss : Nat) (f : SnpCpuidFn) : Bool :=
  eax == f.eax_in && ecx == f.ecx_in && xcr0 == f.xcr0_in && xss == f.xss_in

/-- The linear-scan body of `cpuid_table_raw` in `cpuid.rs` (the code after the
`panic!`, which the compiler marks `unreachable_code`): for `i in 0..count`,
return the four stored output registers of the first entry matching the query
on all four key fields, else `None`. -/
def cpuid_table_scan (t : SnpCpuidTable) (eax ecx xcr0 xss : Nat) : Option CpuidResult :=
  ((t.func.take t.count).find? (entry_matches eax ecx xcr0 xss)).map fun f =>
    { eax := f.eax_out, ebx := f.ebx_out, ecx := f.ecx_out, edx := f.edx_out }

/-- `cpuid_table_raw` from `cpuid.rs`: its first statement is
`panic!("cpuid_table_raw not supported")`, so every call panics; the scan body
(`cpuid_table_scan`) after it is unreachable. The `cell` argument is the state
of the `CPUID_PAGE` write-once global (`none` = not yet installed). -/
def cpuid_table_raw (cell : Option SnpCpuidTable) (eax ecx xcr0 xss : Nat) :
    PanicOr (Option CpuidResult) :=
  PanicOr.panicked "cpuid_table_raw not supported"

/-- `cpuid_table` from `cpuid.rs`: delegates to `cpuid_table_raw` with
sub-leaf 0 and both extended-state masks 0. -/
def cpuid_table (cell : Option SnpCpuidTable) (eax : Nat) : PanicOr (Option CpuidResult) :=
  cpuid_table_raw cell eax 0 0 0

/-- `u32::trailing_zeros`: index of the lowest set bit, 32 when no bit below
32 is set. -/
def u32_trailing_zeros (n : Nat) : Nat :=
  (((List.range 32).find? fun i => n.testBit i).getD 32)

/-- `Cpuid01Edx::PGE` from the bitflags block in `cpuid.rs`: `1 << 13`. -/
def Cpuid01Edx.PGE : Nat := 1 <<< 13

/-- `Cpuid80000001Edx::NX` from the bitflags block in `cpuid.rs`: `1 << 20`. -/
def Cpuid80000001Edx.NX : Nat := 1 <<< 20

/-- `X86_FEATURE_PGE` from `features.rs`:
`Cpuid01Edx::PGE.bits().trailing_zeros()` (word 0). -/
def X86_FEATURE_PGE : Nat := u32_trailing_zeros Cpuid01Edx.PGE

/-- `X86_FEATURE_NX` from `features.rs`:
`32 + Cpuid80000001Edx::NX.bits().trailing_zeros()` (word 1). -/
def X86_FEATURE_NX : Nat := 32 + u32_trailing_zeros Cpuid80000001Edx.NX

/-- `FEATURE_WORDS` from `features.rs`. -/
def FEATURE_WORDS : Nat := 2

/-- `X86Features` from `features.rs`: a fixed array of `FEATURE_WORDS` 32-bit
words. -/
structure X86Features where
  word : Fin FEATURE_WORDS → Nat

/-- `X86Features::new` from `features.rs`: word 0 is the EDX register of CPUID
leaf 0x00000001, word 1 the EDX register of leaf 0x80000001, both obtained via
`cpuid(..).unwrap()` (`cpuid` always returns `Some`, so `unwrap` cannot fail;
`getD default` extracts the value). -/
def X86Features.new (hw : Nat → CpuidResult) : X86Features where
  word := fun i =>
    if i.val = 0 then ((cpuid hw 0x00000001).getD default).edx
    else ((cpuid hw 0x80000001).getD default).edx

/-- `cpu_has_feature` from `features.rs`, line 41, as written in the source:
`X86_FEATURES.word[(feat / 32) as usize] & (feat % 32) != 0`.
Note the mask is `feat % 32` itself, not `1 << (feat % 32)`.
Out-of-bounds indexing (a Rust panic) is modelled as `none`. -/
def cpu_has_feature (f : X86Features) (feat : Nat) : Option Bool :=
  if h : feat / 32 < FEATURE_WORDS then
    some ((f.word ⟨feat / 32, h⟩ &&& (feat % 32)) != 0)
  else none

/-- The feature test as the spec §4.4 states it:
`word[feature_index / 32] & (1 << (feature_index % 32)) != 0`. -/
def cpu_has_feature_spec (f : X86Features) (feat : Nat) : Option Bool :=
  if h : feat / 32 < FEATURE_WORDS then
    some ((f.word ⟨feat / 32, h⟩ &&& (1 <<< (feat % 32))) != 0)
  else none

/-- Modelled from the spec: the `CpuType` enumeration of `crate::types`, not
part of the excerpt. Spec §3: "Platform Identity: an enumeration with exactly
two variants"; variant names follow their uses in `features.rs`. -/
inductive CpuType where
  | Sev
  | Td
deriving DecidableEq, Repr

/-- `is_td_cpu` from `features.rs`: the ordered three-step signature match.
The CPUID query function is a parameter `q` (the source calls `cpuid`, whose
`None` arms it handles explicitly). -/
def is_td_cpu (q : Nat → Option CpuidResult) : Bool :=
  match q 0x00000000 with
  | none => false
  | some c =>
    if c.ebx != 0x756e6547 || c.edx != 0x49656e69 || c.ecx != 0x6c65746e then false
    else
      match q 0x00000001 with
      | none => false
      | some c =>
        if c.ecx &&& 0x80000000 == 0 then false
        else
          match q 0x00000021 with
          | none => false
          | some c =>
            if c.ebx != 0x65746e49 || c.edx != 0x5844546c || c.ecx != 0x20202020 then false
            else true

/-- `get_cpu_type` from `features.rs`. -/
def get_cpu_type (q : Nat → Option CpuidResult) : CpuType :=
  if is_td_cpu q then CpuType.Td else CpuType.Sev

/-- One access to a `lazy_static` cell: if already initialized return the
cached value, otherwise compute, cache and return it. -/
def lazy_get {α : Type} (compute : Unit → α) (st : Option α) : α × Option α :=
  match st with
  | some v => (v, some v)
  | none =>
    let v := compute ()
    (v, some v)

/-- `cpu_type` from `features.rs`: dereference of the `lazy_static` cell
`CPU_TYPE`, whose initializer is `get_cpu_type()`. Returns the value and the
cell state after the call. -/
def cpu_type (q : Nat → Option CpuidResult) (st : Option CpuType) : CpuType × Option CpuType :=
  lazy_get (fun _ => get_cpu_type q) st

/-- The values returned by `n` successive `cpu_type()` calls starting from
cell state `st`, threading the cell state through. -/
def cpu_type_calls (q : Nat → Option CpuidResult) : Nat → Option CpuType → List CpuType
  | 0, _ => []
  | n + 1, st =>
    let r := cpu_type q st
    r.1 :: cpu_type_calls q n r.2

/-- `is_sev` from `features.rs`: `cpu_type() == CpuType::Sev`. -/
def is_sev (q : Nat → Option CpuidResult) (st : Option CpuType) : Bool × Option CpuType :=
  let r := cpu_type q st
  (r.1 == CpuType.Sev, r.2)

/-- `is_tdx` from `features.rs`: `cpu_type() == CpuType::Td`. -/
def is_tdx (q : Nat → Option CpuidResult) (st : Option CpuType) : Bool × Option CpuType :=
  let r := cpu_type q st
  (r.1 == CpuType.Td, r.2)

/-- The three-step signature conditions of `is_td_cpu`, stated separately:
step 1, the vendor leaf signature registers. -/
def vendor_sig_matches (c : CpuidResult) : Prop :=
  c.ebx = 0x756e6547 ∧ c.edx = 0x49656e69 ∧ c.ecx = 0x6c65746e

/-- Step 2: the hypervisor-present bit (ECX bit 31) of the baseline feature
leaf. -/
def hypervisor_bit_set (c : CpuidResult) : Prop :=
  c.ecx &&& 0x80000000 ≠ 0

/-- Step 3: the technology-specific leaf 0x21 signature registers. -/
def td_leaf_sig_matches (c : CpuidResult) : Prop :=
  c.ebx = 0x65746e49 ∧ c.edx = 0x5844546c ∧ c.ecx = 0x20202020

/- ## Concrete fixtures used by counterexamples and witnesses -/

/-- Hardware environment where CPUID leaf 1 EDX has exactly bit 13 (PGE) set,
leaf 0x80000001 EDX has exactly bit 20 (NX) set, everything else zero. -/
def hwBitsSet : Nat → CpuidResult := fun leaf =>
  if leaf = 0x00000001 then { eax := 0, ebx := 0, ecx := 0, edx := 1 <<< 13 }
  else if leaf = 0x80000001 then { eax := 0, ebx := 0, ecx := 0, edx := 1 <<< 20 }
  else { eax := 0, ebx := 0, ecx := 0, edx := 0 }

/-- Hardware environment where all CPUID output registers are zero. -/
def hwZero : Nat → CpuidResult := fun _ =>
  { eax := 0, ebx := 0, ecx := 0, edx := 0 }

/-- Hardware environment carrying all three TD signatures: vendor leaf 0 with
the expected vendor registers, leaf 1 with the hypervisor bit (ECX bit 31)
set, and leaf 0x21 with the technology-specific signature. -/
def hwTd : Nat → CpuidResult := fun leaf =>
  if leaf = 0x00000000 then
    { eax := 0, ebx := 0x756e6547, ecx := 0x6c65746e, edx := 0x49656e69 }
  else if leaf = 0x00000001 then
    { eax := 0, ebx := 0, ecx := 0x80000000, edx := 0 }
  else if leaf = 0x00000021 then
    { eax := 0, ebx := 0x65746e49, ecx := 0x20202020, edx := 0x5844546c }
  else { eax := 0, ebx := 0, ecx := 0, edx := 0 }

/-- A concrete verified-table entry: query (7, 0, 0, 0) with stored outputs
(1, 2, 3, 4). -/
def entry0 : SnpCpuidFn :=
  { eax_in := 7, ecx_in := 0, xcr0_in := 0, xss_in := 0
    eax_out := 1, ebx_out := 2, ecx_out := 3, edx_out := 4 }

/-- A concrete one-entry verified table holding `entry0`. -/
def table0 : SnpCpuidTable := { count := 1, func := [entry0] }

/- ## Helper lemmas -/

/-- Once the `CPU_TYPE` cell is initialized, every later call returns the
cached value and leaves the cell unchanged. -/
theorem cpu_type_calls_some (q : Nat → Option CpuidResult) (v : CpuType) :
    ∀ n, cpu_type_calls q n (some v) = List.replicate n v := by
  intro n
  induction n with
  | zero => rfl
  | succ m ih => simp [cpu_type_calls, cpu_type, lazy_get, ih, List.replicate]

/- ## Claim theorems -/

/-- Claim C7: the raw identification probe `cpuid` returns `Some` result for
every leaf number and every hardware environment. -/
theorem claim_C7 (hw : Nat → CpuidResult) (eax : Nat) :
    ∃ r, cpuid hw eax = some r :=
  ⟨_, rfl⟩

/-- Witness for C7 at a concrete environment and leaf. -/
theorem claim_C7_witness : ∃ r, cpuid hwZero 5 = some r :=
  claim_C7 hwZero 5

/-- Claim C8: the named feature constants follow the formula
`base_word_offset * 32 + bit_position` (`X86_FEATURE_PGE = 0*32 + 13`,
`X86_FEATURE_NX = 1*32 + 20`) and do not alias. -/
theorem claim_C8 :
    X86_FEATURE_PGE = 0 * 32 + 13 ∧ X86_FEATURE_NX = 1 * 32 + 20 ∧
    X86_FEATURE_PGE ≠ X86_FEATURE_NX := by
  decide

/-- Claim C9: every call to `cpuid_table_raw`, and hence to its wrapper
`cpuid_table`, panics with "cpuid_table_raw not supported", whatever the
arguments and whether or not the verified table has been installed. -/
theorem claim_C9 (cell : Option SnpCpuidTable) (eax ecx xcr0 xss : Nat) :
    cpuid_table_raw cell eax ecx xcr0 xss =
      PanicOr.panicked "cpuid_table_raw not supported" ∧
    cpuid_table cell eax = PanicOr.panicked "cpuid_table_raw not supported" :=
  ⟨rfl, rfl⟩

/-- Witness for C9 at a concrete installed table and concrete arguments. -/
theorem claim_C9_witness :
    cpuid_table_raw (some table0) 7 0 0 0 =
      PanicOr.panicked "cpuid_table_raw not supported" ∧
    cpuid_table (some table0) 7 = PanicOr.panicked "cpuid_table_raw not supported" :=
  claim_C9 (some table0) 7 0 0 0

/-- Claim C4: a first `register_cpuid_table` on the uninitialized cell
succeeds and installs the table; a second call on the installed cell panics
("Could not initialize CPUID page") instead of silently succeeding or
overwriting. -/
theorem claim_C4 (t t' : SnpCpuidTable) :
    register_cpuid_table none t = PanicOr.ok (some t) ∧
    register_cpuid_table (some t) t' =
      PanicOr.panicked "Could not initialize CPUID page" :=
  ⟨rfl, rfl⟩

/-- Witness for C4 at a concrete table. -/
theorem claim_C4_witness :
    register_cpuid_table none table0 = PanicOr.ok (some table0) ∧
    register_cpuid_table (some table0) table0 =
      PanicOr.panicked "Could not initialize CPUID page" :=
  claim_C4 table0 table0

/-- Claim C10: in every cell state and environment, exactly one of `is_sev`
and `is_tdx` returns true, and `is_sev` is the negation of `is_tdx`. -/
theorem claim_C10 (q : Nat → Option CpuidResult) (st : Option CpuType) :
    ((is_sev q st).1 && (is_tdx q st).1) = false ∧
    ((is_sev q st).1 || (is_tdx q st).1) = true ∧
    (is_sev q st).1 = !(is_tdx q st).1 := by
  cases hv : (cpu_type q st).1 <;> simp [is_sev, is_tdx, hv]

/-- Witness for C10 at a concrete environment and uninitialized cell. -/
theorem claim_C10_witness :
    ((is_sev (cpuid hwZero) none).1 && (is_tdx (cpuid hwZero) none).1) = false ∧
    ((is_sev (cpuid hwZero) none).1 || (is_tdx (cpuid hwZero) none).1) = true ∧
    (is_sev (cpuid hwZero) none).1 = !(is_tdx (cpuid hwZero) none).1 :=
  claim_C10 (cpuid hwZero) none

/-- Claim C1 (code evaluation at the failing input): with leaf 1 EDX holding
exactly bit 13, `cpu_has_feature` at index `X86_FEATURE_PGE = 13` returns
`false` — the source masks with `feat % 32` itself — while the spec formula
`word[i / 32] & (1 << (i % 32)) != 0` gives `true`. -/
theorem claim_C1_code_eval :
    cpu_has_feature (X86Features.new hwBitsSet) X86_FEATURE_PGE = some false ∧
    cpu_has_feature_spec (X86Features.new hwBitsSet) X86_FEATURE_PGE = some true := by
  decide

/-- Claim C5 (code evaluation at the failing input): with leaf 1 EDX bit 13
and leaf 0x80000001 EDX bit 20 set, the code returns `false` for both
`X86_FEATURE_PGE` and `X86_FEATURE_NX` (the claim requires `true`); with both
registers zero it returns `false` for both (as the claim says). -/
theorem claim_C5_code_eval :
    cpu_has_feature (X86Features.new hwBitsSet) X86_FEATURE_PGE = some false ∧
    cpu_has_feature (X86Features.new hwBitsSet) X86_FEATURE_NX = some false ∧
    cpu_has_feature (X86Features.new hwZero) X86_FEATURE_PGE = some false ∧
    cpu_has_feature (X86Features.new hwZero) X86_FEATURE_NX = some false := by
  decide

/-- Counterexample to C2 as stated: at the installed one-entry table `table0`
and the exactly matching query (7, 0, 0, 0), `cpuid_table_raw` does not return
the stored registers (1, 2, 3, 4) — it panics. -/
theorem claim_C2_counterexample :
    cpuid_table_raw (some table0) 7 0 0 0 =
      PanicOr.panicked "cpuid_table_raw not supported" ∧
    cpuid_table_raw (some table0) 7 0 0 0 ≠
      PanicOr.ok (some { eax := 1, ebx := 2, ecx := 3, edx := 4 }) := by
  decide

/-- The `is_td_cpu` result characterized: true exactly when the vendor leaf
matches, the hypervisor bit is set, and the leaf 0x21 signature matches. -/
theorem is_td_cpu_eq_true_iff (q : Nat → Option CpuidResult) :
    is_td_cpu q = true ↔
      (∃ c, q 0x00000000 = some c ∧ vendor_sig_matches c) ∧
      (∃ c, q 0x00000001 = some c ∧ hypervisor_bit_set c) ∧
      (∃ c, q 0x00000021 = some c ∧ td_leaf_sig_matches c) := by
  cases h0 : q 0x00000000 with
  | none => simp [is_td_cpu, h0]
  | some c0 =>
    cases h1 : q 0x00000001 with
    | none =>
      simp [is_td_cpu, h0, h1, ite_eq_iff, vendor_sig_matches]
    | some c1 =>
      cases h2 : q 0x00000021 with
      | none =>
        simp [is_td_cpu, h0, h1, h2, ite_eq_iff, vendor_sig_matches, hypervisor_bit_set]
      | some c2 =>
        simp only [is_td_cpu, h0, h1, h2, ite_eq_iff, vendor_sig_matches,
          hypervisor_bit_set, td_leaf_sig_matches, Bool.or_eq_true, bne_iff_ne,
          beq_iff_eq, Option.some.injEq]
        constructor
        · rintro (⟨-, h⟩ | ⟨hv, (⟨-, h⟩ | ⟨hb, (⟨-, h⟩ | ⟨ht, -⟩)⟩)⟩)
          · exact absurd h (by decide)
          · exact absurd h (by decide)
          · exact absurd h (by decide)
          · push_neg at hv hb ht
            refine ⟨⟨c0, ?_, ?_⟩, ⟨c1, ?_, ?_⟩, ⟨c2, ?_, ?_⟩⟩ <;> tauto
        · rintro ⟨⟨c0', hc0, hv⟩, ⟨c1', hc1, hb⟩, ⟨c2', hc2, ht⟩⟩
          cases hc0; cases hc1; cases hc2
          refine Or.inr ⟨?_, Or.inr ⟨?_, Or.inr ⟨?_, trivial⟩⟩⟩ <;> push_neg <;> tauto

/-- Claim C3: the platform is classified as `Td` exactly when the vendor leaf
signature matches, the baseline feature leaf has the hypervisor-present bit
(ECX bit 31) set, and the leaf 0x21 registers match the three-register
signature; on any mismatch or unavailable query the classification is `Sev`
(the only other variant), and in particular a vendor-string match with the
hypervisor bit clear resolves to `Sev`. -/
theorem claim_C3 (q : Nat → Option CpuidResult) :
    (get_cpu_type q = CpuType.Td ↔
      (∃ c, q 0x00000000 = some c ∧ vendor_sig_matches c) ∧
      (∃ c, q 0x00000001 = some c ∧ hypervisor_bit_set c) ∧
      (∃ c, q 0x00000021 = some c ∧ td_leaf_sig_matches c)) ∧
    (get_cpu_type q = CpuType.Td ∨ get_cpu_type q = CpuType.Sev) ∧
    (∀ c0 c1, q 0x00000000 = some c0 → vendor_sig_matches c0 →
      q 0x00000001 = some c1 → ¬ hypervisor_bit_set c1 →
      get_cpu_type q = CpuType.Sev) := by
  have hiff := is_td_cpu_eq_true_iff q
  unfold get_cpu_type
  by_cases htd : is_td_cpu q = true
  · rw [if_pos htd]
    refine ⟨⟨fun _ => hiff.mp htd, fun _ => rfl⟩, Or.inl rfl, ?_⟩
    intro c0 c1 h0 hv h1 hnb
    obtain ⟨-, ⟨c1', h1', hb⟩, -⟩ := hiff.mp htd
    rw [h1] at h1'
    cases Option.some.inj h1'
    exact absurd hb hnb
  · rw [if_neg htd]
    exact ⟨⟨fun h => absurd h (by decide), fun hr => absurd (hiff.mpr hr) htd⟩,
      Or.inr rfl, fun _ _ _ _ _ _ => rfl⟩

/-- Witness for C3: the fixture environment carrying all three signatures is
classified `Td` via the characterization. -/
theorem claim_C3_witness : get_cpu_type (cpuid hwTd) = CpuType.Td :=
  (claim_C3 (cpuid hwTd)).1.mpr
    ⟨⟨_, rfl, by unfold vendor_sig_matches; decide⟩,
     ⟨_, rfl, by unfold hypervisor_bit_set; decide⟩,
     ⟨_, rfl, by unfold td_leaf_sig_matches; decide⟩⟩

/-- Claim C6: starting from the uninitialized `CPU_TYPE` cell, `n` successive
`cpu_type()` calls all return `get_cpu_type q`; once the cell holds a value it
is returned unchanged forever; the predicates `is_sev`/`is_tdx` are determined
by the same cached value. -/
theorem claim_C6 (q : Nat → Option CpuidResult) (n : Nat) :
    cpu_type_calls q n none = List.replicate n (get_cpu_type q) ∧
    (∀ v : CpuType, cpu_type q (some v) = (v, some v)) ∧
    (∀ st, (is_sev q st).1 = ((cpu_type q st).1 == CpuType.Sev) ∧
      (is_tdx q st).1 = ((cpu_type q st).1 == CpuType.Td)) := by
  refine ⟨?_, fun v => rfl, fun st => ⟨rfl, rfl⟩⟩
  cases n with
  | zero => rfl
  | succ m =>
    simp [cpu_type_calls, cpu_type, lazy_get, cpu_type_calls_some, List.replicate]

/-- Witness for C6: three calls on a concrete environment from the
uninitialized cell return the same variant three times. -/
theorem claim_C6_witness :
    cpu_type_calls (cpuid hwZero) 3 none =
      List.replicate 3 (get_cpu_type (cpuid hwZero)) :=
  (claim_C6 (cpuid hwZero) 3).1

/-- Claim C2 (amended): the linear-scan body of `cpuid_table_raw` (unreachable
behind the unconditional panic) returns `none` exactly when no entry among the
first `count` matches all four key fields, and any returned registers are the
four stored outputs of a matching entry — so two entries sharing leaf/sub-leaf
but differing in an extended-state mask are distinguished. -/
theorem claim_C2_amended (t : SnpCpuidTable) (eax ecx xcr0 xss : Nat) :
    (cpuid_table_scan t eax ecx xcr0 xss = none ↔
      ∀ f ∈ t.func.take t.count,
        ¬(eax = f.eax_in ∧ ecx = f.ecx_in ∧ xcr0 = f.xcr0_in ∧ xss = f.xss_in)) ∧
    (∀ r, cpuid_table_scan t eax ecx xcr0 xss = some r →
      ∃ f, f ∈ t.func.take t.count ∧
        eax = f.eax_in ∧ ecx = f.ecx_in ∧ xcr0 = f.xcr0_in ∧ xss = f.xss_in ∧
        r = { eax := f.eax_out, ebx := f.ebx_out, ecx := f.ecx_out, edx := f.edx_out }) := by
  constructor
  · simp only [cpuid_table_scan, Option.map_eq_none', List.find?_eq_none,
      entry_matches, Bool.and_eq_true, beq_iff_eq, and_assoc]
  · intro r hr
    simp only [cpuid_table_scan, Option.map_eq_some'] at hr
    obtain ⟨f, hf, hrf⟩ := hr
    have hp := List.find?_some hf
    have hm := List.mem_of_find?_eq_some hf
    simp only [entry_matches, Bool.and_eq_true, beq_iff_eq] at hp
    exact ⟨f, hm, hp.1.1.1, hp.1.1.2, hp.1.2, hp.2, hrf.symm⟩

/-- Witness for C2 (amended): on the concrete one-entry table, a non-matching
query scans to `none`. -/
theorem claim_C2_amended_witness : cpuid_table_scan table0 99 0 0 0 = none :=
  (claim_C2_amended table0 99 0 0 0).1.mpr (by decide)
